import Mathlib

/-!
Verification of the session-and-dispatch layer of the linear-mcp server
(`src/src/index.ts`, session-indexed variant: the `LinearServer` class with the
`transports` registry, the `POST /mcp` and `GET /mcp` express handlers, and the
`setupRequestHandlers` dispatch code).

Modelling conventions:
- A Transport Adapter instance is identified by a `TransportId : Nat`; reference
  equality of adapter objects in the source is equality of these identities.
- The `transports` map (a JS object keyed by session id) is an association list
  with JS-object semantics: property read, property assignment (overwrite or
  append), insertion order preserved.
- The `mcp-session-id` request header has TS type `string | undefined` and is
  modelled by `Option String`; JS truthiness (`undefined` and `""` are falsy)
  is modelled explicitly, because the source branches on `sessionId &&` and
  `!sessionId`.
- `randomUUID()` is modelled by a caller-supplied `freshSid` string; the spec
  directs that generator collisions be treated as negligible and not a handled
  error, so freshness is a hypothesis where a theorem needs it.
-/

/-- Identity of a Transport Adapter instance. Two adapters are the same object
(reference equality) iff their `TransportId`s are equal. -/
abbrev TransportId := Nat

/-- The Session Registry: the `transports : { [sessionId: string]: StreamableHTTPServerTransport }`
field of `LinearServer` (src/src/index.ts line 210), as an association list from
session id to the transport instance stored under it. -/
abbrev Registry := List (String × TransportId)

namespace Registry

/-- JS property read `this.transports[sid]`: the value stored under key `sid`,
or `none` when the key is absent. -/
def lookup : Registry → String → Option TransportId
  | [], _ => none
  | (k, v) :: rest, sid => if k = sid then some v else lookup rest sid

/-- JS property assignment `this.transports[sid] = t`: overwrite the existing
entry for `sid` or append a new one (insertion order preserved). -/
def insert : Registry → String → TransportId → Registry
  | [], sid, t => [(sid, t)]
  | (k, v) :: rest, sid, t =>
      if k = sid then (sid, t) :: rest else (k, v) :: insert rest sid t

end Registry

/-- JS truthiness of the `string | undefined` header value read from the
request header `mcp-session-id`: `undefined` and the empty string are falsy,
every other string is truthy. -/
def jsTruthyHeader : Option String → Bool
  | none => false
  | some s => !(s == "")

/-- The source's guard `sessionId && this.transports[sessionId]`
(src/src/index.ts line 292): the stored transport when the header is truthy and
names a key of the registry, `none` otherwise (short-circuit: an untruthy header
is never looked up). -/
def knownTransport (reg : Registry) (header : Option String) : Option TransportId :=
  match header with
  | none => none
  | some s => if s = "" then none else reg.lookup s

/-- A JSON-RPC error response body `{jsonrpc, error: {code, message}, id}` as the
source builds it with `res.status(...).json({...})`; `idNull` records that the
`id` field is the JSON `null` literal. -/
structure RpcErrorBody where
  jsonrpc : String
  code : Int
  message : String
  idNull : Bool
deriving DecidableEq, Repr

/-- The 400 body of src/src/index.ts lines 314-321: jsonrpc "2.0", error code
-32000 with message "Bad Request: No valid session ID provided", id null. -/
def invalidSessionBody : RpcErrorBody :=
  { jsonrpc := "2.0", code := -32000,
    message := "Bad Request: No valid session ID provided", idNull := true }

/-- The 500 body of src/src/index.ts lines 330-337: jsonrpc "2.0", error code
-32603 with message "Internal server error", id null. -/
def internalErrorBody : RpcErrorBody :=
  { jsonrpc := "2.0", code := -32603, message := "Internal server error", idNull := true }

/-- Mutable state of the `LinearServer` instance relevant to session handling:
the `transports` registry, the list of transport instances that have been
connected to the MCP `Server` via `this.server.connect(transport)`, and the
identity source for the next adapter instance allocated by
`new StreamableHTTPServerTransport(...)`. -/
structure ServerState where
  transports : Registry
  connected : List TransportId
  nextTid : TransportId
deriving DecidableEq, Repr

/-- The server's startup state: an empty registry, nothing connected. -/
def initialServer : ServerState :=
  { transports := [], connected := [], nextTid := 0 }

/-- Outcome of one `POST /mcp` request (src/src/index.ts lines 285-340), on the
non-throwing path. -/
inductive PostOutcome where
  /-- The request was handed to the existing transport stored under the header's
  session id (`transport.handleRequest(req, res, req.body)`, line 326). -/
  | handledExisting (tid : TransportId)
  /-- A new transport was created and connected and the request was handed to it
  (lines 297-311). Modelled from the spec: inside the SDK's `handleRequest`, an
  initialization request triggers `onsessioninitialized`, which stores the
  transport in the registry under the freshly generated session id, and the
  response reports that id back to the caller together with the initialization
  result. `sid` is the reported session id, `tid` the new adapter instance. -/
  | handledNew (sid : String) (tid : TransportId)
  /-- The request was rejected with `res.status(400).json(body)` (lines 313-322)
  and no transport handled it. -/
  | badRequest (body : RpcErrorBody)
deriving DecidableEq, Repr

/-- The `POST /mcp` express handler (src/src/index.ts lines 285-340), non-throwing
path. `header` is the value of the mcp-session-id request header, `isInit` is
`isInitializeRequest(req.body)`, and `freshSid` is the `randomUUID()` the
`sessionIdGenerator` would produce for this request. Returns the outcome and the
server state after the request. -/
def handlePost (st : ServerState) (header : Option String) (isInit : Bool)
    (freshSid : String) : PostOutcome × ServerState :=
  match knownTransport st.transports header with
  | some tid =>
      -- reuse of the existing transport stored under sessionId, which then
      -- handles the request: transport.handleRequest(req, res, req.body)
      (PostOutcome.handledExisting tid, st)
  | none =>
      if !jsTruthyHeader header && isInit then
        -- else if (!sessionId && isInitializeRequest(req.body)): create the
        -- transport, connect it, hand the request over; onsessioninitialized
        -- stores it under the generated id.
        let tid := st.nextTid
        (PostOutcome.handledNew freshSid tid,
         { transports := st.transports.insert freshSid tid,
           connected := tid :: st.connected,
           nextTid := st.nextTid + 1 })
      else
        -- else: res.status(400).json({... -32000 ...}); return
        (PostOutcome.badRequest invalidSessionBody, st)

/-- Outcome of one `GET /mcp` request (src/src/index.ts lines 343-353). -/
inductive GetOutcome where
  /-- Plain-text rejection via res.status(400).send("Invalid or missing session ID"):
  no push channel is attached. -/
  | badRequest (status : Nat) (body : String)
  /-- Delegation to transport.handleRequest(req, res) on the stored transport:
  the SSE push channel is attached to that transport. -/
  | attached (tid : TransportId)
deriving DecidableEq, Repr

/-- The `GET /mcp` express handler (src/src/index.ts lines 343-353). The guard is
`if (!sessionId || !this.transports[sessionId])`. The registry is never modified
by this handler. -/
def handleGet (reg : Registry) (header : Option String) : GetOutcome :=
  match header with
  | none => GetOutcome.badRequest 400 "Invalid or missing session ID"
  | some sid =>
      if sid = "" then GetOutcome.badRequest 400 "Invalid or missing session ID"
      else
        match reg.lookup sid with
        | none => GetOutcome.badRequest 400 "Invalid or missing session ID"
        | some tid => GetOutcome.attached tid

/-- The catch-all of the `POST /mcp` handler (src/src/index.ts lines 327-339):
when an unhandled fault occurs, if `res.headersSent` is false the response is
`res.status(500).json(internalErrorBody)`; otherwise no response is written. -/
def handlePostFault (headersSent : Bool) : Option (Nat × RpcErrorBody) :=
  if headersSent then none else some (500, internalErrorBody)

/-- Whole-system state: the server's mutable state plus a ghost record of the
session ids whose transport has closed (the closed sessions). The source keeps
no such record; the ghost field only lets us state what the registry holds for
closed sessions. -/
structure SysState where
  server : ServerState
  closed : List String
deriving DecidableEq, Repr

/-- The system's startup state. -/
def initialSys : SysState :=
  { server := initialServer, closed := [] }

/-- The external events the `run` method reacts to: the two express routes, and
the close of a session's underlying transport. -/
inductive Event where
  /-- A `POST /mcp` request with the given header, `isInitializeRequest` result,
  and the `randomUUID()` the generator would produce. -/
  | post (header : Option String) (isInit : Bool) (freshSid : String)
  /-- A `GET /mcp` request with the given header. -/
  | get (header : Option String)
  /-- The transport of session `sid` closes. The source installs no `onclose`
  handler and contains no deletion from `transports`, so the registry is
  untouched; only the ghost `closed` record grows. -/
  | close (sid : String)
deriving DecidableEq, Repr

/-- One step of the system: how each event transforms the state, exactly as the
handlers in `run` do (src/src/index.ts lines 284-353). `GET /mcp` never writes
the registry; a transport close changes nothing in the server state. -/
def stepEv (st : SysState) : Event → SysState
  | Event.post header isInit freshSid =>
      { st with server := (handlePost st.server header isInit freshSid).2 }
  | Event.get _ => st
  | Event.close sid => { st with closed := sid :: st.closed }

/-- A JS exception value as it crosses the dispatch boundary: every error here
is an `Error` with a `message`; `isMcpError` tells a typed `McpError` (carrying
a protocol `code`) from a plain, untyped `Error`. -/
structure JsError where
  isMcpError : Bool
  code : Int
  message : String
deriving DecidableEq, Repr

/-- The protocol code `ErrorCode.MethodNotFound`. -/
def methodNotFoundCode : Int := -32601

/-- The protocol code `ErrorCode.InternalError`. -/
def internalErrorCode : Int := -32603

/-- JS `String.prototype.startsWith`, written on the character lists of the two
strings so that it evaluates by structural recursion. -/
def jsStartsWith (s pre : String) : Bool :=
  pre.data.isPrefixOf s.data

/-- Modelled from the spec: `HandlerFactory.getHandlerForTool`
(`src/core/handlers/handler.factory.ts`, not part of the included source)
resolves a tool name against the statically registered tool names and throws a
plain `Error` whose message starts with `"No handler found"` when the name is
not registered (the catch in src/src/index.ts lines 263-268 and spec section 8,
scenario B, fix this shape). `registered` is the list of registered tool names. -/
def getHandlerForTool (registered : List String) (name : String) :
    Except JsError Unit :=
  if registered.contains name then Except.ok ()
  else Except.error
    { isMcpError := false, code := 0, message := "No handler found for tool: " ++ name }

/-- The `CallToolRequestSchema` handler of `setupRequestHandlers`
(src/src/index.ts lines 257-271): resolve the tool name, invoke the resolved
handler method, and in the catch block convert any caught error whose message
starts with `"No handler found"` into `McpError(MethodNotFound, "Unknown tool: <name>")`,
rethrowing every other error unchanged. `handlerResult` is what the invoked
handler's promise does (resolve with a value of type `α` or reject with an
error); the returned `Bool` records whether the handler was invoked at all. -/
def callToolDispatch {α : Type} (registered : List String) (name : String)
    (handlerResult : Except JsError α) : Except JsError α × Bool :=
  let tryBlock : Except JsError α × Bool :=
    match getHandlerForTool registered name with
    | Except.error e => (Except.error e, false)
    | Except.ok () => (handlerResult, true)
  match tryBlock with
  | (Except.ok v, invoked) => (Except.ok v, invoked)
  | (Except.error e, invoked) =>
      if jsStartsWith e.message "No handler found" then
        (Except.error
          { isMcpError := true, code := methodNotFoundCode,
            message := "Unknown tool: " ++ name }, invoked)
      else (Except.error e, invoked)

/-- A tool descriptor: one value of the `toolSchemas` record (a name and its
input schema). The concrete schema shape is opaque to the dispatch layer. -/
structure ToolSchema where
  name : String
  inputSchema : String
deriving DecidableEq, Repr

/-- JS `Object.values` on a record modelled as an association list: its values
in insertion (declaration) order. -/
def objectValues {α : Type} (record : List (String × α)) : List α :=
  record.map Prod.snd

/-- The `ListToolsRequestSchema` handler of `setupRequestHandlers`
(src/src/index.ts lines 252-254): `async () => ({ tools: Object.values(toolSchemas) })`.
`toolSchemas` is the static registry from `src/core/types/tool.types.ts` (not
part of the included source), passed here as a parameter; `st` is the server's
mutable state, which the handler closure does not consult. -/
def listToolsHandler (toolSchemas : List (String × ToolSchema)) (st : ServerState) :
    List ToolSchema :=
  objectValues toolSchemas

/-! ### Helper lemmas about the registry and the handlers -/

theorem Registry.lookup_insert_self (reg : Registry) (sid : String) (t : TransportId) :
    (reg.insert sid t).lookup sid = some t := by
  induction reg with
  | nil => simp [Registry.insert, Registry.lookup]
  | cons kv rest ih =>
      obtain ⟨k, v⟩ := kv
      by_cases hk : k = sid
      · simp [Registry.insert, Registry.lookup, hk]
      · simp [Registry.insert, Registry.lookup, hk, ih]

theorem Registry.lookup_insert_ne (reg : Registry) (sid k : String) (t : TransportId)
    (h : k ≠ sid) : (reg.insert sid t).lookup k = reg.lookup k := by
  induction reg with
  | nil => simp [Registry.insert, Registry.lookup, Ne.symm h]
  | cons kv rest ih =>
      obtain ⟨k1, v⟩ := kv
      by_cases hk : k1 = sid
      · subst hk
        simp [Registry.insert, Registry.lookup, Ne.symm h]
      · simp [Registry.insert, Registry.lookup, hk, ih]

/-- A header that is absent or names no key of the registry (the hypothesis of
the 400 branches in the claims). -/
def headerNamesNoSession (reg : Registry) : Option String → Prop
  | none => True
  | some s => reg.lookup s = none

theorem knownTransport_eq_none_of_namesNoSession (reg : Registry)
    (header : Option String) (h : headerNamesNoSession reg header) :
    knownTransport reg header = none := by
  match header with
  | none => rfl
  | some s =>
      simp only [headerNamesNoSession] at h
      by_cases hs : s = ""
      · simp [knownTransport, hs]
      · simp [knownTransport, hs, h]

/-! ### Claim theorems -/

/-- C5: for every POST /mcp request whose body is not an initialization message
and whose mcp-session-id header is absent or names no session in the registry,
the response is HTTP 400 with body jsonrpc "2.0", id null, error code -32000,
message "Bad Request: No valid session ID provided"; no transport handles the
request and the server state is unchanged. -/
theorem post_no_valid_session_rejected (st : ServerState) (header : Option String)
    (freshSid : String) (h : headerNamesNoSession st.transports header) :
    handlePost st header false freshSid
      = (PostOutcome.badRequest
          { jsonrpc := "2.0", code := -32000,
            message := "Bad Request: No valid session ID provided", idNull := true }, st) := by
  have hk := knownTransport_eq_none_of_namesNoSession st.transports header h
  simp [handlePost, hk, invalidSessionBody]

/-- Witness for C5 at a concrete input: header "nope" in an empty registry. -/
theorem post_no_valid_session_rejected_witness :
    handlePost initialServer (some "nope") false "f1"
      = (PostOutcome.badRequest
          { jsonrpc := "2.0", code := -32000,
            message := "Bad Request: No valid session ID provided", idNull := true },
         initialServer) :=
  post_no_valid_session_rejected initialServer (some "nope") "f1" rfl

/-- C6: a GET /mcp whose mcp-session-id header is absent or names no session is
rejected with HTTP 400 and plain-text body "Invalid or missing session ID", and
no push channel is attached; a GET /mcp whose header names a known session is
handed to that session's stored transport to attach the push channel. -/
theorem get_stream_attach_routing (reg : Registry) (header : Option String) :
    (headerNamesNoSession reg header →
        handleGet reg header = GetOutcome.badRequest 400 "Invalid or missing session ID")
    ∧ (∀ sid tid, header = some sid → sid ≠ "" → reg.lookup sid = some tid →
        handleGet reg header = GetOutcome.attached tid) := by
  constructor
  · intro h
    cases header with
    | none => rfl
    | some s =>
        simp only [headerNamesNoSession] at h
        by_cases hs : s = ""
        · simp [handleGet, hs]
        · simp [handleGet, hs, h]
  · rintro sid tid rfl hne hl
    simp [handleGet, hne, hl]

/-- Witness for C6 at concrete inputs: an absent header in the empty registry is
rejected, and a known session id attaches to the stored transport. -/
theorem get_stream_attach_routing_witness :
    handleGet [] none = GetOutcome.badRequest 400 "Invalid or missing session ID"
    ∧ handleGet [("s1", 7)] (some "s1") = GetOutcome.attached 7 :=
  ⟨(get_stream_attach_routing [] none).1 trivial,
   (get_stream_attach_routing [("s1", 7)] (some "s1")).2 "s1" 7 rfl (by decide) rfl⟩

/-- C8: the tools/list handler answers with exactly the values of the static
toolSchemas registry, in their stable declaration order, for every server
(hence session) state; two different states produce the identical answer. -/
theorem tools_list_static (toolSchemas : List (String × ToolSchema))
    (st1 st2 : ServerState) :
    listToolsHandler toolSchemas st1 = objectValues toolSchemas
    ∧ listToolsHandler toolSchemas st1 = listToolsHandler toolSchemas st2 :=
  ⟨rfl, rfl⟩

/-- C9: when an unhandled fault occurs in the POST /mcp handler and response
headers have not been sent, the response is HTTP 500 with body jsonrpc "2.0",
id null, error code -32603, message "Internal server error"; when headers have
already been sent, no response body is written at all. -/
theorem post_unhandled_fault_response :
    handlePostFault false
      = some (500, { jsonrpc := "2.0", code := -32603,
                     message := "Internal server error", idNull := true })
    ∧ handlePostFault true = none :=
  ⟨rfl, rfl⟩

/-- C3 (failing trace): a session is initialized and stored under the generated
id "s"; then its transport closes. The source installs no onclose handler and
contains no deletion from the transports registry, so after the close step the
registry still holds the closed session's entry. -/
theorem closed_session_entry_retained :
    ("s" ∈ (stepEv (stepEv initialSys (Event.post none true "s")) (Event.close "s")).closed)
    ∧ (stepEv (stepEv initialSys (Event.post none true "s"))
        (Event.close "s")).server.transports.lookup "s" = some 0 := by
  constructor
  · simp [stepEv, handlePost, knownTransport, initialSys, initialServer]
  · rfl

theorem knownTransport_eq_none_of_falsy (reg : Registry) (header : Option String)
    (h : jsTruthyHeader header = false) : knownTransport reg header = none := by
  cases header with
  | none => rfl
  | some s =>
      simp only [jsTruthyHeader, Bool.not_eq_false'] at h
      have hs : s = "" := by simpa using h
      simp [knownTransport, hs]

/-- C10 (counterexample to the claim as stated): a POST /mcp carrying an
mcp-session-id header with the empty value — a header that names no session in
the (empty) registry — and an initialization body is not rejected: the source
tests JS truthiness, treats the empty header like an absent one, and mints a
session. -/
theorem empty_header_init_not_rejected :
    initialServer.transports.lookup "" = none
    ∧ (handlePost initialServer (some "") true "u1").1 = PostOutcome.handledNew "u1" 0
    ∧ (handlePost initialServer (some "") true "u1").2.transports.lookup "u1" = some 0 :=
  ⟨rfl, rfl, rfl⟩

/-- C10 (amended): every POST /mcp carrying a non-empty mcp-session-id header
that names no session in the registry is rejected with HTTP 400 and code -32000
even when the body is a valid initialization message, and no session is created
(the server state is unchanged). -/
theorem nonempty_unknown_session_always_rejected (st : ServerState) (sid : String)
    (isInit : Bool) (freshSid : String) (hne : sid ≠ "")
    (hunknown : st.transports.lookup sid = none) :
    handlePost st (some sid) isInit freshSid
      = (PostOutcome.badRequest
          { jsonrpc := "2.0", code := -32000,
            message := "Bad Request: No valid session ID provided", idNull := true }, st) := by
  have hbeq : (sid == "") = false := by simpa using hne
  simp [handlePost, knownTransport, hne, hunknown, jsTruthyHeader, hbeq, invalidSessionBody]

/-- Witness for the amended C10 at a concrete input: an unknown non-empty header
with an initialization body is still rejected, with no session created. -/
theorem nonempty_unknown_session_always_rejected_witness :
    handlePost initialServer (some "zz") true "f2"
      = (PostOutcome.badRequest
          { jsonrpc := "2.0", code := -32000,
            message := "Bad Request: No valid session ID provided", idNull := true },
         initialServer) :=
  nonempty_unknown_session_always_rejected initialServer "zz" true "f2" (by decide) rfl

/-- C7 (counterexample to the claim as stated): a session is minted although the
request does carry an mcp-session-id header — with the empty value, which the
source's JS truthiness test treats like an absent header. -/
theorem session_minted_despite_present_header :
    (some "" : Option String) ≠ none
    ∧ (handlePost initialServer (some "") true "c7").1 = PostOutcome.handledNew "c7" 0 :=
  ⟨by simp, rfl⟩

/-- C7 (amended): a new session is minted exactly when the POST /mcp carries an
absent or empty (JS-falsy) mcp-session-id header together with an initialization
body; in that case the session is created under the freshly generated id, the
newly allocated transport instance is stored in the registry under that id and
connected to the server, and the new id is reported back to the caller with the
initialization result. -/
theorem session_minting_characterization (st : ServerState) (header : Option String)
    (isInit : Bool) (freshSid : String) :
    (∀ sid tid, (handlePost st header isInit freshSid).1 = PostOutcome.handledNew sid tid →
        jsTruthyHeader header = false ∧ isInit = true
        ∧ sid = freshSid ∧ tid = st.nextTid)
    ∧ (jsTruthyHeader header = false → isInit = true →
        (handlePost st header isInit freshSid).1 = PostOutcome.handledNew freshSid st.nextTid
        ∧ (handlePost st header isInit freshSid).2.transports.lookup freshSid
            = some st.nextTid
        ∧ st.nextTid ∈ (handlePost st header isInit freshSid).2.connected) := by
  constructor
  · intro sid tid h
    rcases hk : knownTransport st.transports header with _ | t0
    · cases hc : (!jsTruthyHeader header && isInit) with
      | false => simp [handlePost, hk, hc] at h
      | true =>
          have hcond := hc
          simp only [Bool.and_eq_true, Bool.not_eq_true'] at hcond
          simp [handlePost, hk, hc] at h
          exact ⟨hcond.1, hcond.2, h.1.symm, h.2.symm⟩
    · simp [handlePost, hk] at h
  · intro hfalsy hinit
    have hk := knownTransport_eq_none_of_falsy st.transports header hfalsy
    refine ⟨?_, ?_, ?_⟩ <;>
      simp [handlePost, hk, hfalsy, hinit, Registry.lookup_insert_self]

/-- Witness for the amended C7 at a concrete input: an initialization request
with no header mints session "w7" on transport instance 0, stores and connects
it. -/
theorem session_minting_characterization_witness :
    (handlePost initialServer none true "w7").1 = PostOutcome.handledNew "w7" 0
    ∧ (handlePost initialServer none true "w7").2.transports.lookup "w7" = some 0
    ∧ (0 : TransportId) ∈ (handlePost initialServer none true "w7").2.connected :=
  (session_minting_characterization initialServer none true "w7").2 rfl rfl

/-- Freshness of the id `randomUUID()` would produce for an event, relative to
the current state: generated session ids are new. The spec directs that
generator collisions be treated as negligible and not a handled error, so the
theorems that need freshness take it as a hypothesis. -/
def eventFresh (st : ServerState) : Event → Prop
  | Event.post _ _ freshSid => st.transports.lookup freshSid = none
  | Event.get _ => True
  | Event.close _ => True

/-- C1: a POST /mcp addressed with a known session id is always handled by the
reference-identical transport instance stored under that id; the binding of a
session id to its adapter survives every system step (given fresh generated
ids), so two requests carrying the same id reach the same instance even across
intervening events; and a binding is only ever created by the initialization
branch, which maps the freshly generated id to the newly allocated instance —
it is set exactly once and never replaced. -/
theorem same_session_same_transport (st : SysState) (e : Event) (sid : String)
    (tid : TransportId) (hne : sid ≠ "")
    (hbound : st.server.transports.lookup sid = some tid)
    (hfresh : eventFresh st.server e) :
    (∀ isInit freshSid, (handlePost st.server (some sid) isInit freshSid).1
        = PostOutcome.handledExisting tid)
    ∧ (stepEv st e).server.transports.lookup sid = some tid
    ∧ (∀ (st2 : SysState) (e2 : Event) (sid2 : String) (tid2 : TransportId),
        st2.server.transports.lookup sid2 = none →
        (stepEv st2 e2).server.transports.lookup sid2 = some tid2 →
        ∃ header, e2 = Event.post header true sid2 ∧ jsTruthyHeader header = false
          ∧ tid2 = st2.server.nextTid) := by
  refine ⟨?_, ?_, ?_⟩
  · intro isInit freshSid
    simp [handlePost, knownTransport, hne, hbound]
  · cases e with
    | post hd i f =>
        have hf : st.server.transports.lookup f = none := hfresh
        have hsidf : sid ≠ f := by
          intro hEq
          rw [hEq, hf] at hbound
          cases hbound
        simp only [stepEv]
        rcases hk : knownTransport st.server.transports hd with _ | t0
        · cases hc : (!jsTruthyHeader hd && i) with
          | false => simpa [handlePost, hk, hc] using hbound
          | true =>
              simpa [handlePost, hk, hc,
                Registry.lookup_insert_ne st.server.transports f sid st.server.nextTid hsidf]
                using hbound
        · simpa [handlePost, hk] using hbound
    | get hd => simpa [stepEv] using hbound
    | close s => simpa [stepEv] using hbound
  · intro st2 e2 sid2 tid2 hnone hsome
    cases e2 with
    | post hd i f =>
        simp only [stepEv] at hsome
        rcases hk : knownTransport st2.server.transports hd with _ | t0
        · cases hc : (!jsTruthyHeader hd && i) with
          | false =>
              simp [handlePost, hk, hc] at hsome
              rw [hnone] at hsome
              cases hsome
          | true =>
              have hcond := hc
              simp only [Bool.and_eq_true, Bool.not_eq_true'] at hcond
              simp [handlePost, hk, hc] at hsome
              by_cases hsidf : sid2 = f
              · subst hsidf
                rw [Registry.lookup_insert_self] at hsome
                refine ⟨hd, ?_, hcond.1, ?_⟩
                · rw [hcond.2]
                · exact (Option.some_inj.mp hsome).symm
              · rw [Registry.lookup_insert_ne st2.server.transports f sid2
                    st2.server.nextTid hsidf] at hsome
                rw [hnone] at hsome
                cases hsome
        · simp [handlePost, hk] at hsome
          rw [hnone] at hsome
          cases hsome
    | get hd =>
        simp only [stepEv] at hsome
        rw [hnone] at hsome
        cases hsome
    | close s =>
        simp only [stepEv] at hsome
        rw [hnone] at hsome
        cases hsome

/-- Witness for C1 at a concrete input: in a state whose registry binds session
"ab" to transport instance 4, a POST carrying header "ab" is handled by
instance 4. -/
theorem same_session_same_transport_witness :
    (handlePost { transports := [("ab", 4)], connected := [4], nextTid := 5 }
        (some "ab") true "w1").1 = PostOutcome.handledExisting 4 :=
  (same_session_same_transport
      { server := { transports := [("ab", 4)], connected := [4], nextTid := 5 },
        closed := [] }
      (Event.get none) "ab" 4 (by decide) rfl trivial).1 true "w1"

theorem isPrefixOf_append_true {α : Type} [BEq α] (p s t : List α)
    (h : p.isPrefixOf s = true) : p.isPrefixOf (s ++ t) = true := by
  induction p generalizing s with
  | nil => simp [List.isPrefixOf]
  | cons a as ih =>
      cases s with
      | nil => simp [List.isPrefixOf] at h
      | cons b bs =>
          simp only [List.isPrefixOf, List.cons_append, Bool.and_eq_true] at h ⊢
          exact ⟨h.1, ih bs h.2⟩

theorem jsStartsWith_append (s t pre : String) (h : jsStartsWith s pre = true) :
    jsStartsWith (s ++ t) pre = true := by
  obtain ⟨sd⟩ := s
  obtain ⟨td⟩ := t
  exact isPrefixOf_append_true pre.data sd td h

/-- C2 (counterexample to the claim as stated): a plain, untyped error thrown by
the handler of a registered tool crosses the dispatch boundary unchanged — the
catch block rethrows it raw instead of converting it into a ProtocolError of
kind InternalError. -/
theorem handler_error_crosses_boundary_raw :
    callToolDispatch ["create_issue"] "create_issue"
        (Except.error { isMcpError := false, code := 0, message := "boom" } :
          Except JsError Unit)
      = (Except.error { isMcpError := false, code := 0, message := "boom" }, true)
    ∧ ({ isMcpError := false, code := 0, message := "boom" } : JsError).isMcpError
        = false :=
  ⟨rfl, rfl⟩

/-- C2 (amended): at the dispatch boundary, only a caught error whose message
starts with "No handler found" is converted — into the typed McpError
MethodNotFound with message "Unknown tool: <name>"; every other error raised by
the invoked handler of a registered tool is rethrown unchanged, so the
InternalError conversion is left to the outer protocol layer. -/
theorem dispatch_error_translation {α : Type} (registered : List String)
    (name : String) (e : JsError) (hreg : registered.contains name = true) :
    (jsStartsWith e.message "No handler found" = false →
        callToolDispatch registered name (Except.error e : Except JsError α)
          = (Except.error e, true))
    ∧ (jsStartsWith e.message "No handler found" = true →
        callToolDispatch registered name (Except.error e : Except JsError α)
          = (Except.error { isMcpError := true, code := methodNotFoundCode,
                            message := "Unknown tool: " ++ name }, true)) := by
  have hmem : name ∈ registered := by simpa using hreg
  constructor
  · intro h
    simp [callToolDispatch, getHandlerForTool, hmem, h]
  · intro h
    simp [callToolDispatch, getHandlerForTool, hmem, h]

/-- Witness for the amended C2 at a concrete input: the raw error "boom" from
the handler of registered tool "a" is rethrown unchanged. -/
theorem dispatch_error_translation_witness :
    callToolDispatch ["a"] "a"
        (Except.error { isMcpError := false, code := 0, message := "oops" } :
          Except JsError Unit)
      = (Except.error { isMcpError := false, code := 0, message := "oops" }, true) :=
  (dispatch_error_translation ["a"] "a"
      { isMcpError := false, code := 0, message := "oops" } (by decide)).1 (by decide)

/-- C4: a tools/call naming a tool that is not in the registry produces the
typed McpError MethodNotFound whose message is exactly "Unknown tool: " followed
by the requested name, and the handler is never invoked (the invoked flag is
false), whatever the handler would have done. -/
theorem unknown_tool_rejected_without_invocation {α : Type}
    (registered : List String) (name : String) (handlerResult : Except JsError α)
    (h : registered.contains name = false) :
    callToolDispatch registered name handlerResult
      = (Except.error { isMcpError := true, code := methodNotFoundCode,
                        message := "Unknown tool: " ++ name }, false) := by
  have hmsg : jsStartsWith ("No handler found for tool: " ++ name)
      "No handler found" = true :=
    jsStartsWith_append "No handler found for tool: " name "No handler found"
      (by decide)
  have hmem : name ∉ registered := by simpa using h
  simp [callToolDispatch, getHandlerForTool, hmem, hmsg]

/-- Witness for C4 at a concrete input: calling the unregistered name
does_not_exist yields MethodNotFound with the exact message, without invoking
any handler. -/
theorem unknown_tool_rejected_without_invocation_witness :
    callToolDispatch ["create_issue"] "does_not_exist"
        (Except.ok () : Except JsError Unit)
      = (Except.error { isMcpError := true, code := methodNotFoundCode,
                        message := "Unknown tool: " ++ "does_not_exist" }, false) :=
  unknown_tool_rejected_without_invocation ["create_issue"] "does_not_exist"
    (Except.ok ()) (by decide)
